import Mathlib

/-!
Verification development for the custommatplot 2-D plotting widget library.

The repository ships only the public headers (cmp_plot.h, cmp_grid.h,
cmp_graph_line.h), the unit tests (cmp_plot_test.cpp) and GUI glue; the
implementation translation units are not part of the source tree given
here.  The data model and the operations below therefore embed the
behaviour documented by the headers' doc comments, the unit tests and the
specification, as shallow Lean definitions.  Data values are modelled as
rationals (the C++ code stores float); pixel-space transforms under
linear and logarithmic scaling are modelled over the reals.
-/

namespace CMP

/-- Axis scaling, mirroring cmp::Scaling in cmp_datamodels.h
(declared in cmp_plot.h: Scaling::linear, Scaling::logarithmic). -/
inductive Scaling where
  | linear
  | logarithmic
deriving DecidableEq, Repr

/-- Downsampling modes, mirroring cmp::DownsamplingType.
cmp_plot.h names DownsamplingType::no_downsampling and
DownsamplingType::xy_downsampling (the default); the spec (section 4.5)
also describes a simpler decimation mode, modelled as x_downsampling. -/
inductive DownsamplingType where
  | no_downsampling
  | x_downsampling
  | xy_downsampling
deriving DecidableEq, Repr

/-- Pixel-point move modes, mirroring cmp::PixelPointMoveType.
cmp_plot.h names PixelPointMoveType::none (the default) and compares
move types with the underlying enum order (move_point_type > none). -/
inductive PixelPointMoveType where
  | none
  | horizontal
  | vertical
  | horizontal_vertical
deriving DecidableEq, Repr

/-- Underlying enum value of a PixelPointMoveType, used to model the
C++ comparison move_point_type > PixelPointMoveType::none. -/
def PixelPointMoveType.toNat : PixelPointMoveType → Nat
  | .none => 0
  | .horizontal => 1
  | .vertical => 2
  | .horizontal_vertical => 3

/-- Graph-line type, mirroring cmp::GraphLineType as used by the unit
tests (GraphLineType::horizontal, GraphLineType::vertical) and by the
templated plotInternal of cmp_plot.h. -/
inductive GraphLineType where
  | normal
  | horizontal
  | vertical
deriving DecidableEq, Repr

/-- Grid type, mirroring cmp::GridType ("grid or tiny grid",
cmp_plot.h setGridType; cmp_grid.h defaults to grid_translucent). -/
inductive GridType where
  | no_grid
  | grid
  | grid_translucent
  | tiny_grid
  | tiny_grid_translucent
deriving DecidableEq, Repr

/-- Axis limits, mirroring the template cmp::Lim of cmp_datamodels.h
(Lim_f is Lim of float). -/
structure Lim (T : Type) where
  min : T
  max : T
deriving DecidableEq, Repr

/-- One graph line, mirroring cmp::GraphLine of cmp_graph_line.h:
m_x_data, m_y_data and the line type the templated plotInternal
instantiates it with. -/
structure GraphLine where
  x_data : List ℚ
  y_data : List ℚ
  line_type : GraphLineType
deriving DecidableEq, Repr

/-- The plot-level state the claims are about, mirroring the members of
cmp::Plot in cmp_plot.h: m_graph_lines, m_downsampling_type,
m_pixel_point_move_type, m_x_scaling, m_y_scaling, m_x_lim, m_y_lim. -/
structure PlotState where
  graph_lines : List GraphLine
  downsampling_type : DownsamplingType
  pixel_point_move_type : PixelPointMoveType
  x_scaling : Scaling
  y_scaling : Scaling
  x_lim : Lim ℚ
  y_lim : Lim ℚ
deriving DecidableEq, Repr

/-- Modelled from the spec: the constructor of cmp::Plot is not under
src/.  Defaults follow cmp_plot.h: no graph lines, downsampling default
DownsamplingType::xy_downsampling, move type default
PixelPointMoveType::none, linear scaling on both axes. -/
def initialPlot : PlotState :=
  { graph_lines := []
    downsampling_type := .xy_downsampling
    pixel_point_move_type := .none
    x_scaling := .linear
    y_scaling := .linear
    x_lim := ⟨0, 0⟩
    y_lim := ⟨0, 0⟩ }

/-- Modelled from the spec: the body of Plot::generateXdataRamp is not
under src/.  Helper filling a vector of a given size with consecutive
values from a start value, as std::iota does. -/
def iotaFill : Nat → ℚ → List ℚ
  | 0, _ => []
  | n + 1, start => start :: iotaFill n (start + 1)

/-- Modelled from the spec: the body of Plot::generateXdataRamp is not
under src/.  Per the doc comment of Plot::plot (cmp_plot.h:62-65) and
spec section 8, when x_data is empty the x-values of each series are set
linearly increasing from 1 to the size of that y-data series. -/
def generateXdataRamp (y_data : List (List ℚ)) : List (List ℚ) :=
  y_data.map (fun ys => iotaFill ys.length 1)

/-- Modelled from the spec: the body of Plot::plotInternal is not under
src/.  Builds the graph lines of one line type from y-data and x-data of
equal shape. -/
def buildGraphLines (t : GraphLineType) (y_data x_data : List (List ℚ)) :
    List GraphLine :=
  List.zipWith (fun ys xs => ⟨xs, ys, t⟩) y_data x_data

/-- Modelled from the spec: the body of Plot::plot is not under src/.
Replaces the plot's normal graph lines wholesale (spec section 3,
DataSeries: replaced wholesale on plot()); when x_data is empty the
x-ramps are generated per series (cmp_plot.h:62-65). -/
def plot (st : PlotState) (y_data : List (List ℚ))
    (x_data : List (List ℚ)) : PlotState :=
  let xs := if x_data.isEmpty then generateXdataRamp y_data else x_data
  { st with
    graph_lines :=
      st.graph_lines.filter (fun l => decide (l.line_type ≠ .normal)) ++
        buildGraphLines .normal y_data xs }

/-- Modelled from the spec: the body of Plot::plotUpdateYOnly is not
under src/.  Per cmp_plot.h:101-110 and spec section 8 it only updates
the y-data of the (normal) graph lines, pairing the supplied y-series
with the normal lines in order; the x-data is left untouched. -/
def updateYDataOnly : List GraphLine → List (List ℚ) → List GraphLine
  | [], _ => []
  | ls, [] => ls
  | l :: ls, ys :: rest =>
    if l.line_type = .normal then
      { l with y_data := ys } :: updateYDataOnly ls rest
    else
      l :: updateYDataOnly ls (ys :: rest)

/-- Modelled from the spec: the body of Plot::plotUpdateYOnly is not
under src/.  Y-only fast path: replaces the y-data of the graph lines
and nothing else (cmp_plot.h:101-110). -/
def plotUpdateYOnly (st : PlotState) (y_data : List (List ℚ)) : PlotState :=
  { st with graph_lines := updateYDataOnly st.graph_lines y_data }

/-- Modelled from the spec: the body of Plot::plotHorizontalLines is not
under src/.  A horizontal line at y-coordinate y has y-data [y, y], the
two endpoints spanning the plot width (unit test "Horizontal line";
spec section 8). -/
def mkHorizontalLine (st : PlotState) (y : ℚ) : GraphLine :=
  ⟨[st.x_lim.min, st.x_lim.max], [y, y], .horizontal⟩

/-- Modelled from the spec: the body of Plot::plotHorizontalLines is not
under src/.  Replaces the horizontal-type graph lines with one line per
given y-coordinate (cmp_plot.h:79-88). -/
def plotHorizontalLines (st : PlotState) (y_coordinates : List ℚ) :
    PlotState :=
  { st with
    graph_lines :=
      st.graph_lines.filter (fun l => decide (l.line_type ≠ .horizontal)) ++
        y_coordinates.map (mkHorizontalLine st) }

/-- Modelled from the spec: the body of Plot::plotVerticalLines is not
under src/.  A vertical line at x-coordinate x has x-data [x, x], the
two endpoints spanning the plot height (unit test "Vertical line"). -/
def mkVerticalLine (st : PlotState) (x : ℚ) : GraphLine :=
  ⟨[x, x], [st.y_lim.min, st.y_lim.max], .vertical⟩

/-- Modelled from the spec: the body of Plot::plotVerticalLines is not
under src/.  Replaces the vertical-type graph lines with one line per
given x-coordinate (cmp_plot.h:90-99). -/
def plotVerticalLines (st : PlotState) (x_coordinates : List ℚ) :
    PlotState :=
  { st with
    graph_lines :=
      st.graph_lines.filter (fun l => decide (l.line_type ≠ .vertical)) ++
        x_coordinates.map (mkVerticalLine st) }

/-- Modelled from the spec: the body of
Plot::syncDownsamplingModeWithMoveType is not under src/.  Per the doc
comments of setDownsamplingType and setMovePointsType (cmp_plot.h:
124-148) the downsampling type is set to no_downsampling whenever
move_point_type > PixelPointMoveType::none. -/
def syncDownsamplingModeWithMoveType (st : PlotState) : PlotState :=
  if PixelPointMoveType.none.toNat < st.pixel_point_move_type.toNat then
    { st with downsampling_type := .no_downsampling }
  else
    st

/-- Modelled from the spec: the body of Plot::setMovePointsType is not
under src/.  Stores the move type, then syncs the downsampling mode
(cmp_plot.h:136-148). -/
def setMovePointsType (st : PlotState) (m : PixelPointMoveType) :
    PlotState :=
  syncDownsamplingModeWithMoveType { st with pixel_point_move_type := m }

/-- Modelled from the spec: the body of Plot::setDownsamplingType is not
under src/.  Stores the requested type, then syncs with the move type,
per the note of cmp_plot.h:124-134. -/
def setDownsamplingType (st : PlotState) (d : DownsamplingType) :
    PlotState :=
  syncDownsamplingModeWithMoveType { st with downsampling_type := d }

/-- Modelled from the spec: setter for the x-limits (Plot::xLim,
cmp_plot.h:45-50); the body is not under src/. -/
def xLim (st : PlotState) (mn mx : ℚ) : PlotState :=
  { st with x_lim := ⟨mn, mx⟩ }

/-- Modelled from the spec: setter for the y-limits (Plot::yLim,
cmp_plot.h:52-57); the body is not under src/. -/
def yLim (st : PlotState) (mn mx : ℚ) : PlotState :=
  { st with y_lim := ⟨mn, mx⟩ }

/-- Modelled from the spec: setter for the axis scaling
(Plot::setScaling, cmp_plot.h:174-180); the body is not under src/. -/
def setScaling (st : PlotState) (xs ys : Scaling) : PlotState :=
  { st with x_scaling := xs, y_scaling := ys }

/-- The public mutating operations of cmp::Plot that the claims range
over, used to define the reachable states of a plot. -/
inductive PlotOp where
  | plotOp (y_data x_data : List (List ℚ))
  | plotUpdateYOnlyOp (y_data : List (List ℚ))
  | plotHorizontalLinesOp (ys : List ℚ)
  | plotVerticalLinesOp (xs : List ℚ)
  | setDownsamplingTypeOp (d : DownsamplingType)
  | setMovePointsTypeOp (m : PixelPointMoveType)
  | xLimOp (mn mx : ℚ)
  | yLimOp (mn mx : ℚ)
  | setScalingOp (xs ys : Scaling)

/-- Interpretation of one public operation on the plot state. -/
def applyOp (st : PlotState) : PlotOp → PlotState
  | .plotOp y x => plot st y x
  | .plotUpdateYOnlyOp y => plotUpdateYOnly st y
  | .plotHorizontalLinesOp ys => plotHorizontalLines st ys
  | .plotVerticalLinesOp xs => plotVerticalLines st xs
  | .setDownsamplingTypeOp d => setDownsamplingType st d
  | .setMovePointsTypeOp m => setMovePointsType st m
  | .xLimOp mn mx => xLim st mn mx
  | .yLimOp mn mx => yLim st mn mx
  | .setScalingOp xs ys => setScaling st xs ys

/-- A plot state is reachable when some sequence of public operations
produces it from the freshly constructed plot. -/
def ReachablePlot (st : PlotState) : Prop :=
  ∃ ops : List PlotOp, st = ops.foldl applyOp initialPlot

/-- The normal (data) graph lines of a plot state. -/
def normalLines (st : PlotState) : List GraphLine :=
  st.graph_lines.filter (fun l => decide (l.line_type = .normal))

/-- The horizontal graph lines of a plot state. -/
def horizontalLinesOf (st : PlotState) : List GraphLine :=
  st.graph_lines.filter (fun l => decide (l.line_type = .horizontal))

/-- The vertical graph lines of a plot state. -/
def verticalLinesOf (st : PlotState) : List GraphLine :=
  st.graph_lines.filter (fun l => decide (l.line_type = .vertical))

/-! ## Auto-tick generation and the grid (cmp_grid.h) -/

/-- Modelled from the spec: the tick generators of cmp_utils.h /
cmp_lookandfeelmethods.h are not under src/.  Clamp value used for
non-positive limits under logarithmic scaling (spec section 3: values
at or below 0 are undefined and clamped). -/
def logClampValue : ℚ := 1 / 1000000

/-- Modelled from the spec: the tick generators are not under src/.
Number of base-10 digits below a natural number, by repeated division;
the first argument is fuel making the recursion structural. -/
def natLog10Aux : ℕ → ℕ → ℕ
  | 0, _ => 0
  | fuel + 1, n => if n < 10 then 0 else natLog10Aux fuel (n / 10) + 1

/-- Floor base-10 logarithm of a natural number (0 for 0). -/
def natLog10 (n : ℕ) : ℕ := natLog10Aux n n

/-- Modelled from the spec: the tick generators are not under src/.
The decade a positive rational lies in: the floor of its base-10
logarithm, computed from the numerator and denominator. -/
def decadeExponent (q : ℚ) : ℤ :=
  if 1 ≤ q then (natLog10 (q.num.toNat / q.den) : ℤ)
  else -((natLog10 (q.den / q.num.toNat) : ℤ) + 1)

/-- Modelled from the spec: the tick generators are not under src/.
Decade ticks: one tick 10 to the k for each integer exponent k from the
decade of the low limit to the decade of the high limit (spec section
4.2: under logarithmic scaling ticks follow decade boundaries). -/
def decadeTicks (lo hi : ℚ) : List ℚ :=
  let kmin : ℤ := decadeExponent lo
  let kmax : ℤ := decadeExponent hi
  (List.range (kmax - kmin + 1).toNat).map (fun i : ℕ => (10 : ℚ) ^ (kmin + (i : ℤ)))

/-- Modelled from the spec: the tick generators are not under src/.
Sub-decade ticks 2 * 10 ^ k .. 9 * 10 ^ k for the tiny grid (spec
section 4.2: optionally sub-decade boundaries). -/
def subDecadeTicks (lo hi : ℚ) : List ℚ :=
  (decadeTicks lo hi).flatMap (fun t => (List.range 8).map (fun m : ℕ => ((m : ℚ) + 2) * t))

/-- Modelled from the spec: the tick generators are not under src/.
Linear auto ticks: evenly spaced positions covering the limits, with the
tick count derived from the pixel span so that consecutive tick spacing
stays above a readability threshold (spec section 4.2a-b). -/
def linearAutoTicks (lim : Lim ℚ) (pixel_span : ℕ) : List ℚ :=
  let num := max 1 (pixel_span / 100)
  (List.range (num + 1)).map
    (fun i : ℕ => lim.min + (lim.max - lim.min) * (i : ℚ) / (num : ℚ))

/-- Modelled from the spec: Grid::createAutoGridTicks and the tick
helpers it calls (updateVerticalGridLineTicksAuto /
updateHorizontalGridLineTicksAuto of the look-and-feel) are not under
src/.  Produces the auto-generated ticks for one axis from the limits,
scaling, pixel span, grid type and the previous ticks.  The spec leaves
how previous ticks bias placement implementation-defined (section 9,
open question), so the previous ticks do not change the output here. -/
def createAutoGridTicks (scaling : Scaling) (lim : Lim ℚ) (pixel_span : ℕ)
    (grid_type : GridType) (previous_ticks : List ℚ) : List ℚ :=
  match scaling with
  | .linear => linearAutoTicks lim pixel_span
  | .logarithmic =>
    let lo := if 0 < lim.min then lim.min else logClampValue
    let hi := if 0 < lim.max then lim.max else logClampValue
    let base := decadeTicks lo hi
    if grid_type = .tiny_grid ∨ grid_type = .tiny_grid_translucent then
      base ++ subDecadeTicks lo hi
    else
      base

/-- Modelled from the spec: the label formatting of
cmp_lookandfeelmethods.h is not under src/.  Maximum character count a
grid label is truncated to (spec section 4.2: label text is truncated
to a maximum character count). -/
def maximumAllowedCharacterGridLabel : ℕ := 6

/-- Modelled from the spec: the label formatting is not under src/.
Formats one tick value as text, truncated to the maximum allowed
character count. -/
def formatGridLabel (q : ℚ) : String :=
  let raw := toString q.num ++ (if q.den = 1 then "" else "/" ++ toString q.den)
  raw.take maximumAllowedCharacterGridLabel

/-- The grid state the claims are about, mirroring the members of
cmp::Grid in cmp_grid.h: m_custom_x_ticks, m_custom_y_ticks,
m_custom_x_labels, m_custom_y_labels, m_x_prev_ticks, m_y_prev_ticks,
m_x_lim, m_y_lim, m_x_scaling, m_y_scaling, m_grid_type and the graph
bounds. -/
structure GridState where
  custom_x_ticks : List ℚ
  custom_y_ticks : List ℚ
  custom_x_labels : List String
  custom_y_labels : List String
  x_prev_ticks : List ℚ
  y_prev_ticks : List ℚ
  x_lim : Lim ℚ
  y_lim : Lim ℚ
  x_scaling : Scaling
  y_scaling : Scaling
  grid_type : GridType
  bounds_width : ℕ
  bounds_height : ℕ
deriving DecidableEq, Repr

/-- A freshly constructed grid: no custom ticks or labels, translucent
grid (cmp_grid.h:185), linear scaling. -/
def initialGrid : GridState :=
  { custom_x_ticks := []
    custom_y_ticks := []
    custom_x_labels := []
    custom_y_labels := []
    x_prev_ticks := []
    y_prev_ticks := []
    x_lim := ⟨0, 0⟩
    y_lim := ⟨0, 0⟩
    x_scaling := .linear
    y_scaling := .linear
    grid_type := .grid_translucent
    bounds_width := 0
    bounds_height := 0 }

/-- Grid::setXTicks (cmp_grid.h:54-61): override the x-ticks. -/
def Grid.setXTicks (g : GridState) (ts : List ℚ) : GridState :=
  { g with custom_x_ticks := ts }

/-- Grid::setYTicks (cmp_grid.h:81-88): override the y-ticks. -/
def Grid.setYTicks (g : GridState) (ts : List ℚ) : GridState :=
  { g with custom_y_ticks := ts }

/-- Grid::setXLabels (cmp_grid.h:63-70): override the auto generated
x-labels. -/
def Grid.setXLabels (g : GridState) (ls : List String) : GridState :=
  { g with custom_x_labels := ls }

/-- Grid::setYLabels (cmp_grid.h:72-79): override the auto generated
y-labels. -/
def Grid.setYLabels (g : GridState) (ls : List String) : GridState :=
  { g with custom_y_labels := ls }

/-- Modelled from the spec: the body of Grid::updateInternal is not
under src/.  The x-ticks the grid displays: the caller-supplied custom
ticks when present, otherwise the auto-generated ticks (spec section
4.2: explicit ticks bypass the generator for that axis). -/
def displayedXTicks (g : GridState) : List ℚ :=
  if g.custom_x_ticks.isEmpty then
    createAutoGridTicks g.x_scaling g.x_lim g.bounds_width g.grid_type
      g.x_prev_ticks
  else
    g.custom_x_ticks

/-- Modelled from the spec: the body of Grid::updateInternal is not
under src/.  The y-ticks the grid displays. -/
def displayedYTicks (g : GridState) : List ℚ :=
  if g.custom_y_ticks.isEmpty then
    createAutoGridTicks g.y_scaling g.y_lim g.bounds_height g.grid_type
      g.y_prev_ticks
  else
    g.custom_y_ticks

/-- Modelled from the spec: the body of Grid::createLabels is not under
src/.  The x-axis labels the grid displays: the caller-supplied custom
labels when present, otherwise labels formatted from the displayed
ticks (spec section 4.2). -/
def displayedXLabels (g : GridState) : List String :=
  if g.custom_x_labels.isEmpty then
    (displayedXTicks g).map formatGridLabel
  else
    g.custom_x_labels

/-- Modelled from the spec: the body of Grid::createLabels is not under
src/.  The y-axis labels the grid displays. -/
def displayedYLabels (g : GridState) : List String :=
  if g.custom_y_labels.isEmpty then
    (displayedYTicks g).map formatGridLabel
  else
    g.custom_y_labels

/-- Modelled from the spec: the body of Grid::update is not under src/.
Recomputes the grid, remembering the ticks just displayed as the
previous ticks for the next auto generation (cmp_grid.h m_x_prev_ticks,
m_y_prev_ticks). -/
def Grid.update (g : GridState) : GridState :=
  { g with
    x_prev_ticks := displayedXTicks g
    y_prev_ticks := displayedYTicks g }

/-- The public mutating operations of cmp::Grid, used to express that a
custom override survives every subsequent grid update. -/
inductive GridOp where
  | setXTicksOp (ts : List ℚ)
  | setYTicksOp (ts : List ℚ)
  | setXLabelsOp (ls : List String)
  | setYLabelsOp (ls : List String)
  | setXLimOp (l : Lim ℚ)
  | setYLimOp (l : Lim ℚ)
  | setXScalingOp (s : Scaling)
  | setYScalingOp (s : Scaling)
  | setGridTypeOp (t : GridType)
  | resizeOp (w h : ℕ)
  | updateOp

/-- Interpretation of one grid operation. -/
def applyGridOp (g : GridState) : GridOp → GridState
  | .setXTicksOp ts => Grid.setXTicks g ts
  | .setYTicksOp ts => Grid.setYTicks g ts
  | .setXLabelsOp ls => Grid.setXLabels g ls
  | .setYLabelsOp ls => Grid.setYLabels g ls
  | .setXLimOp l => { g with x_lim := l }
  | .setYLimOp l => { g with y_lim := l }
  | .setXScalingOp s => { g with x_scaling := s }
  | .setYScalingOp s => { g with y_scaling := s }
  | .setGridTypeOp t => { g with grid_type := t }
  | .resizeOp w h => { g with bounds_width := w, bounds_height := h }
  | .updateOp => Grid.update g

/-- A grid operation that changes a custom tick or label override
(setting or clearing one). -/
def changesCustomOverride : GridOp → Bool
  | .setXTicksOp _ => true
  | .setYTicksOp _ => true
  | .setXLabelsOp _ => true
  | .setYLabelsOp _ => true
  | _ => false

/-! ## Nearest-point hit-testing (cmp_graph_line.h) -/

/-- Modelled from the spec: the body of
GraphLine::findClosestDataPointTo is not under src/.  Comparison
measure between two points: squared Euclidean distance, or squared
x-distance when only horizontal proximity matters (spec section 4.3);
squared distances order points the same way the absolute distances of
the C++ code do. -/
def pointDistanceMeasure (check_only_distance_from_x : Bool)
    (a b : ℚ × ℚ) : ℚ :=
  if check_only_distance_from_x then
    (a.1 - b.1) ^ 2
  else
    (a.1 - b.1) ^ 2 + (a.2 - b.2) ^ 2

/-- Modelled from the spec: the body of
GraphLine::findClosestDataPointTo is not under src/.  Linear scan over
the data points keeping the closest one seen so far (spec section 4.3:
no binary-search shortcut is assumed; the result is an error when the
point set is empty). -/
def findClosestDataPointTo (x_data y_data : List ℚ)
    (this_data_point : ℚ × ℚ) (check_only_distance_from_x : Bool) :
    Option (ℚ × ℚ) :=
  (List.zip x_data y_data).foldl
    (fun best q =>
      match best with
      | Option.none => some q
      | some b =>
        if pointDistanceMeasure check_only_distance_from_x this_data_point q <
            pointDistanceMeasure check_only_distance_from_x this_data_point b
        then some q
        else some b)
    Option.none

/-! ## Data-to-pixel coordinate transform (spec section 4.1) -/

/-- Modelled from the spec: the transform bodies of
cmp_lookandfeelmethods.h (used by updateXPixelPoints and
getTracePointPositionFrom) are not under src/.  Maps a data value to a
pixel offset given the axis limits, the scaling, the pixel origin b and
the pixel span w: an affine map for linear scaling; for logarithmic
scaling the value and the limits go through the logarithm before the
affine map (spec section 4.1), modelled over the reals. -/
noncomputable def transformValueToPixel (s : Scaling) (lim : Lim ℝ)
    (b w v : ℝ) : ℝ :=
  match s with
  | .linear => b + (v - lim.min) / (lim.max - lim.min) * w
  | .logarithmic =>
    b + (Real.log v - Real.log lim.min) /
        (Real.log lim.max - Real.log lim.min) * w

/-- Modelled from the spec: the inverse transform (pixel to data,
needed for hit-testing and zoom-rectangle conversion, spec section 4.1)
is not under src/. -/
noncomputable def transformPixelToValue (s : Scaling) (lim : Lim ℝ)
    (b w p : ℝ) : ℝ :=
  match s with
  | .linear => lim.min + (p - b) / w * (lim.max - lim.min)
  | .logarithmic =>
    Real.exp (Real.log lim.min +
      (p - b) / w * (Real.log lim.max - Real.log lim.min))

/-! ## Helper lemmas -/

theorem iotaFill_eq_range_map (n : ℕ) (s : ℚ) :
    iotaFill n s = (List.range n).map (fun j : ℕ => (j : ℚ) + s) := by
  induction n generalizing s with
  | zero => rfl
  | succ n ih =>
    show s :: iotaFill n (s + 1) = _
    rw [ih, List.range_succ_eq_map, List.map_cons, List.map_map]
    refine congrArg₂ List.cons (by norm_num) (List.map_congr_left fun a _ => ?_)
    simp only [Function.comp_apply]
    push_cast
    ring

theorem buildGraphLines_nil (t : GraphLineType) (x : List (List ℚ)) :
    buildGraphLines t [] x = [] := rfl

theorem buildGraphLines_cons (t : GraphLineType) (ys xs : List ℚ)
    (rest xrest : List (List ℚ)) :
    buildGraphLines t (ys :: rest) (xs :: xrest) =
      ⟨xs, ys, t⟩ :: buildGraphLines t rest xrest := rfl

theorem buildGraphLines_map_y (t : GraphLineType) (y x : List (List ℚ))
    (h : x.length = y.length) :
    (buildGraphLines t y x).map GraphLine.y_data = y := by
  induction y generalizing x with
  | nil => rfl
  | cons ys rest ih =>
    cases x with
    | nil => simp at h
    | cons xs xrest =>
      rw [buildGraphLines_cons, List.map_cons]
      exact congrArg₂ List.cons rfl (ih xrest (by simpa using h))

theorem buildGraphLines_map_x (t : GraphLineType) (y x : List (List ℚ))
    (h : x.length = y.length) :
    (buildGraphLines t y x).map GraphLine.x_data = x := by
  induction y generalizing x with
  | nil =>
    cases x with
    | nil => rfl
    | cons _ _ => simp at h
  | cons ys rest ih =>
    cases x with
    | nil => simp at h
    | cons xs xrest =>
      rw [buildGraphLines_cons, List.map_cons]
      exact congrArg₂ List.cons rfl (ih xrest (by simpa using h))

theorem filter_eq_after_filter_ne (t : GraphLineType) (l : List GraphLine) :
    (l.filter (fun x => decide (x.line_type ≠ t))).filter
      (fun x => decide (x.line_type = t)) = [] := by
  induction l with
  | nil => rfl
  | cons a l ih =>
    by_cases h : a.line_type = t
    · simpa [List.filter_cons, h] using ih
    · simpa [List.filter_cons, h] using ih

theorem filter_buildGraphLines_self (t : GraphLineType) (y x : List (List ℚ)) :
    (buildGraphLines t y x).filter (fun l => decide (l.line_type = t)) =
      buildGraphLines t y x := by
  induction y generalizing x with
  | nil => rfl
  | cons ys rest ih =>
    cases x with
    | nil => rfl
    | cons xs xrest =>
      rw [buildGraphLines_cons, List.filter_cons]
      simpa using ih xrest

theorem generateXdataRamp_length (y_data : List (List ℚ)) :
    (generateXdataRamp y_data).length = y_data.length := by
  simp [generateXdataRamp]

theorem normalLines_plot_empty_x (st : PlotState) (y_data : List (List ℚ)) :
    normalLines (plot st y_data []) =
      buildGraphLines .normal y_data (generateXdataRamp y_data) := by
  show ((st.graph_lines.filter _ ++
      buildGraphLines .normal y_data _).filter _) = _
  rw [List.filter_append, filter_eq_after_filter_ne,
    filter_buildGraphLines_self, List.nil_append]
  rfl

/-! ## C1 -/

/-- C1: plotting y-only series with empty x-data yields, for each series
independently, y-data equal to the given series and x-data equal to the
integer ramp 1, 2, ..., length of that series. -/
theorem plot_empty_xdata_gives_index_ramps (st : PlotState)
    (y_data : List (List ℚ)) :
    (normalLines (plot st y_data [])).map GraphLine.y_data = y_data ∧
    (normalLines (plot st y_data [])).map GraphLine.x_data =
      y_data.map (fun ys => (List.range ys.length).map (fun j : ℕ => (j : ℚ) + 1)) := by
  rw [normalLines_plot_empty_x]
  constructor
  · exact buildGraphLines_map_y _ _ _ (generateXdataRamp_length y_data)
  · rw [buildGraphLines_map_x _ _ _ (generateXdataRamp_length y_data)]
    exact List.map_congr_left fun ys _ => iotaFill_eq_range_map ys.length 1

/-! ## C2 -/

theorem updateYDataOnly_preserves_x (ls : List GraphLine)
    (ys : List (List ℚ)) :
    (updateYDataOnly ls ys).map GraphLine.x_data =
      ls.map GraphLine.x_data := by
  induction ls generalizing ys with
  | nil => cases ys <;> rfl
  | cons l ls ih =>
    cases ys with
    | nil => rfl
    | cons y rest =>
      by_cases h : l.line_type = GraphLineType.normal
      · simpa [updateYDataOnly, h] using ih rest
      · simpa [updateYDataOnly, h] using ih (y :: rest)

theorem updateYDataOnly_sets_y (ls : List GraphLine) (ys : List (List ℚ))
    (hlen : ls.length = ys.length)
    (hnormal : ∀ l ∈ ls, l.line_type = GraphLineType.normal) :
    (updateYDataOnly ls ys).map GraphLine.y_data = ys := by
  induction ls generalizing ys with
  | nil =>
    cases ys with
    | nil => rfl
    | cons _ _ => simp at hlen
  | cons l ls ih =>
    cases ys with
    | nil => simp at hlen
    | cons y rest =>
      have h := hnormal l (by simp)
      simp only [updateYDataOnly, if_pos h, List.map_cons]
      exact congrArg₂ List.cons rfl
        (ih rest (by simpa using hlen) (fun l2 hl2 => hnormal l2 (by simp [hl2])))

/-- C2: the y-only fast path plotUpdateYOnly replaces each series y-data
exactly with the supplied series and leaves every series x-data
unchanged. -/
theorem plotUpdateYOnly_keeps_x_replaces_y (st : PlotState)
    (y_data : List (List ℚ))
    (hlen : st.graph_lines.length = y_data.length)
    (hnormal : ∀ l ∈ st.graph_lines, l.line_type = GraphLineType.normal) :
    (plotUpdateYOnly st y_data).graph_lines.map GraphLine.x_data =
      st.graph_lines.map GraphLine.x_data ∧
    (plotUpdateYOnly st y_data).graph_lines.map GraphLine.y_data = y_data :=
  ⟨updateYDataOnly_preserves_x _ _, updateYDataOnly_sets_y _ _ hlen hnormal⟩

/-- C2 witness: the unit-test scenario with explicit x-data followed by
a y-only update; the x-data survives and the y-data is replaced. -/
theorem plotUpdateYOnly_keeps_x_replaces_y_witness :
    (plotUpdateYOnly (plot initialPlot [[100, 200]] [[32, 45]])
        [[7, 8]]).graph_lines.map GraphLine.x_data =
      (plot initialPlot [[100, 200]] [[32, 45]]).graph_lines.map
        GraphLine.x_data ∧
    (plotUpdateYOnly (plot initialPlot [[100, 200]] [[32, 45]])
        [[7, 8]]).graph_lines.map GraphLine.y_data = [[7, 8]] :=
  plotUpdateYOnly_keeps_x_replaces_y _ _ (by decide) (by decide)

/-! ## C9 and C10 -/

theorem isEmpty_false_of_ne_nil {T : Type} (l : List T) (h : l ≠ []) :
    l.isEmpty = false := by
  cases l with
  | nil => exact absurd rfl h
  | cons _ _ => rfl

/-- C9: plotHorizontalLines with a single y-coordinate leaves exactly
one horizontal-type series, whose y-data is the two endpoints [y, y]
spanning the plot width; on a fresh plot it is the only series. -/
theorem plotHorizontalLines_single_series (st : PlotState) (y : ℚ) :
    horizontalLinesOf (plotHorizontalLines st [y]) =
      [⟨[st.x_lim.min, st.x_lim.max], [y, y], GraphLineType.horizontal⟩] ∧
    (plotHorizontalLines initialPlot [y]).graph_lines =
      [⟨[0, 0], [y, y], GraphLineType.horizontal⟩] := by
  constructor
  · show ((st.graph_lines.filter _ ++
        [y].map (mkHorizontalLine st)).filter _) = _
    rw [List.filter_append, filter_eq_after_filter_ne, List.nil_append]
    simp [mkHorizontalLine]
  · simp [plotHorizontalLines, initialPlot, mkHorizontalLine]

/-- C10: plotVerticalLines with a single x-coordinate leaves exactly
one vertical-type series, whose x-data is the two endpoints [x, x]
spanning the plot height; on a fresh plot it is the only series. -/
theorem plotVerticalLines_single_series (st : PlotState) (x : ℚ) :
    verticalLinesOf (plotVerticalLines st [x]) =
      [⟨[x, x], [st.y_lim.min, st.y_lim.max], GraphLineType.vertical⟩] ∧
    (plotVerticalLines initialPlot [x]).graph_lines =
      [⟨[x, x], [0, 0], GraphLineType.vertical⟩] := by
  constructor
  · show ((st.graph_lines.filter _ ++
        [x].map (mkVerticalLine st)).filter _) = _
    rw [List.filter_append, filter_eq_after_filter_ne, List.nil_append]
    simp [mkVerticalLine]
  · simp [plotVerticalLines, initialPlot, mkVerticalLine]

/-! ## C3 -/

/-- The coupling of spec section 4.5: whenever point-dragging is
enabled, downsampling is no_downsampling. -/
def MoveSyncInvariant (st : PlotState) : Prop :=
  PixelPointMoveType.none.toNat < st.pixel_point_move_type.toNat →
  st.downsampling_type = DownsamplingType.no_downsampling

theorem sync_preserves_move (st : PlotState) :
    (syncDownsamplingModeWithMoveType st).pixel_point_move_type =
      st.pixel_point_move_type := by
  unfold syncDownsamplingModeWithMoveType
  split <;> rfl

theorem moveSyncInvariant_sync (st : PlotState) :
    MoveSyncInvariant (syncDownsamplingModeWithMoveType st) := by
  intro hmove
  rw [sync_preserves_move] at hmove
  unfold syncDownsamplingModeWithMoveType
  rw [if_pos hmove]

theorem applyOp_preserves_moveSyncInvariant (st : PlotState) (op : PlotOp)
    (h : MoveSyncInvariant st) : MoveSyncInvariant (applyOp st op) := by
  cases op with
  | plotOp y x => exact h
  | plotUpdateYOnlyOp y => exact h
  | plotHorizontalLinesOp ys => exact h
  | plotVerticalLinesOp xs => exact h
  | setDownsamplingTypeOp d => exact moveSyncInvariant_sync _
  | setMovePointsTypeOp m => exact moveSyncInvariant_sync _
  | xLimOp mn mx => exact h
  | yLimOp mn mx => exact h
  | setScalingOp xs ys => exact h

theorem foldl_preserves_moveSyncInvariant (ops : List PlotOp)
    (st : PlotState) (h : MoveSyncInvariant st) :
    MoveSyncInvariant (ops.foldl applyOp st) := by
  induction ops generalizing st with
  | nil => exact h
  | cons op ops ih =>
    exact ih _ (applyOp_preserves_moveSyncInvariant st op h)

/-- C3: enabling point-dragging forces the downsampling type to
no_downsampling, and in every reachable plot state the downsampling
type is no_downsampling whenever the move type is greater than none. -/
theorem movePoints_forces_no_downsampling :
    (∀ (st : PlotState) (m : PixelPointMoveType),
        PixelPointMoveType.none.toNat < m.toNat →
        (setMovePointsType st m).downsampling_type =
          DownsamplingType.no_downsampling) ∧
    (∀ st : PlotState, ReachablePlot st →
        PixelPointMoveType.none.toNat < st.pixel_point_move_type.toNat →
        st.downsampling_type = DownsamplingType.no_downsampling) := by
  constructor
  · intro st m hm
    have hmv := sync_preserves_move { st with pixel_point_move_type := m }
    exact moveSyncInvariant_sync { st with pixel_point_move_type := m }
      (by rw [hmv]; exact hm)
  · intro st hreach hm
    obtain ⟨ops, rfl⟩ := hreach
    refine foldl_preserves_moveSyncInvariant ops initialPlot ?_ hm
    intro hinit
    exact absurd hinit (by decide)

/-- C3 witness: enabling horizontal point-dragging right after setting
x-y aware downsampling forces the downsampling type to none; the
resulting state is reachable. -/
theorem movePoints_forces_no_downsampling_witness :
    (setMovePointsType
        (setDownsamplingType initialPlot DownsamplingType.xy_downsampling)
        PixelPointMoveType.horizontal).downsampling_type =
      DownsamplingType.no_downsampling :=
  movePoints_forces_no_downsampling.2 _
    ⟨[PlotOp.setDownsamplingTypeOp DownsamplingType.xy_downsampling,
      PlotOp.setMovePointsTypeOp PixelPointMoveType.horizontal], rfl⟩
    (by decide)

/-! ## C7 -/

/-- C7: nearest-point hit-testing on a series with exactly one data
point returns that point, for every query coordinate and under both the
full-distance and the x-only-distance measure. -/
theorem findClosestDataPointTo_singleton (x y : ℚ) (q : ℚ × ℚ)
    (check_only_distance_from_x : Bool) :
    findClosestDataPointTo [x] [y] q check_only_distance_from_x =
      some (x, y) := rfl

/-! ## C5 -/

theorem decadeTicks_pos (lo hi t : ℚ) (ht : t ∈ decadeTicks lo hi) :
    0 < t := by
  unfold decadeTicks at ht
  simp only [List.mem_map, List.mem_range] at ht
  obtain ⟨i, _, rfl⟩ := ht
  exact zpow_pos (by norm_num) _

theorem subDecadeTicks_pos (lo hi t : ℚ) (ht : t ∈ subDecadeTicks lo hi) :
    0 < t := by
  unfold subDecadeTicks at ht
  simp only [List.mem_flatMap, List.mem_map, List.mem_range] at ht
  obtain ⟨u, hu, m, _, rfl⟩ := ht
  have hu2 := decadeTicks_pos lo hi u hu
  have hm : (0 : ℚ) < (m : ℚ) + 2 := by
    have : (0 : ℚ) ≤ (m : ℚ) := Nat.cast_nonneg m
    linarith
  exact mul_pos hm hu2

/-- C5: for every axis limits, pixel span, grid type and previous tick
set, the auto-generated ticks under logarithmic scaling are all
strictly positive. -/
theorem log_auto_ticks_positive (lim : Lim ℚ) (pixel_span : ℕ)
    (grid_type : GridType) (previous_ticks : List ℚ) (t : ℚ)
    (ht : t ∈ createAutoGridTicks Scaling.logarithmic lim pixel_span
      grid_type previous_ticks) : 0 < t := by
  simp only [createAutoGridTicks] at ht
  split at ht
  · rcases List.mem_append.mp ht with h | h
    · exact decadeTicks_pos _ _ _ h
    · exact subDecadeTicks_pos _ _ _ h
  · exact decadeTicks_pos _ _ _ ht

/-- C5 witness: with limits 1 to 100 the logarithmic auto ticks contain
the decade tick 10, and it is positive. -/
theorem log_auto_ticks_positive_witness :
    (10 : ℚ) ∈ createAutoGridTicks Scaling.logarithmic ⟨1, 100⟩ 500
        GridType.grid [] ∧
    (0 : ℚ) < 10 := by
  have hmem : (10 : ℚ) ∈ createAutoGridTicks Scaling.logarithmic ⟨1, 100⟩ 500
      GridType.grid [] := by
    have hcreate : createAutoGridTicks Scaling.logarithmic ⟨1, 100⟩ 500
        GridType.grid [] = decadeTicks 1 100 := rfl
    have e1 : decadeExponent (1 : ℚ) = 0 := by
      unfold decadeExponent
      rw [if_pos (le_refl (1 : ℚ))]
      have h : (1 : ℚ).num.toNat / (1 : ℚ).den = 1 := by decide
      rw [h, show natLog10 1 = 0 from by decide]
      rfl
    have e2 : decadeExponent (100 : ℚ) = 2 := by
      unfold decadeExponent
      rw [if_pos (by norm_num : (1 : ℚ) ≤ 100)]
      have h : (100 : ℚ).num.toNat / (100 : ℚ).den = 100 := by decide
      rw [h, show natLog10 100 = 2 from by decide]
      rfl
    rw [hcreate]
    unfold decadeTicks
    rw [e1, e2]
    refine List.mem_map.mpr ⟨1, ?_, ?_⟩
    · norm_num
    · norm_num
  exact ⟨hmem,
    log_auto_ticks_positive ⟨1, 100⟩ 500 GridType.grid [] 10 hmem⟩

/-! ## C6 -/

theorem applyGridOp_preserves_customs (g : GridState) (op : GridOp)
    (h : changesCustomOverride op = false) :
    (applyGridOp g op).custom_x_ticks = g.custom_x_ticks ∧
    (applyGridOp g op).custom_y_ticks = g.custom_y_ticks ∧
    (applyGridOp g op).custom_x_labels = g.custom_x_labels ∧
    (applyGridOp g op).custom_y_labels = g.custom_y_labels := by
  cases op with
  | setXTicksOp ts => simp [changesCustomOverride] at h
  | setYTicksOp ts => simp [changesCustomOverride] at h
  | setXLabelsOp ls => simp [changesCustomOverride] at h
  | setYLabelsOp ls => simp [changesCustomOverride] at h
  | setXLimOp l => exact ⟨rfl, rfl, rfl, rfl⟩
  | setYLimOp l => exact ⟨rfl, rfl, rfl, rfl⟩
  | setXScalingOp sc => exact ⟨rfl, rfl, rfl, rfl⟩
  | setYScalingOp sc => exact ⟨rfl, rfl, rfl, rfl⟩
  | setGridTypeOp t => exact ⟨rfl, rfl, rfl, rfl⟩
  | resizeOp w h2 => exact ⟨rfl, rfl, rfl, rfl⟩
  | updateOp => exact ⟨rfl, rfl, rfl, rfl⟩

theorem foldl_preserves_customs (ops : List GridOp) (g : GridState)
    (h : ∀ op ∈ ops, changesCustomOverride op = false) :
    (ops.foldl applyGridOp g).custom_x_ticks = g.custom_x_ticks ∧
    (ops.foldl applyGridOp g).custom_y_ticks = g.custom_y_ticks ∧
    (ops.foldl applyGridOp g).custom_x_labels = g.custom_x_labels ∧
    (ops.foldl applyGridOp g).custom_y_labels = g.custom_y_labels := by
  induction ops generalizing g with
  | nil => exact ⟨rfl, rfl, rfl, rfl⟩
  | cons op ops ih =>
    have h1 := applyGridOp_preserves_customs g op (h op (by simp))
    have h2 := ih (applyGridOp g op) (fun o ho => h o (by simp [ho]))
    exact ⟨h2.1.trans h1.1, h2.2.1.trans h1.2.1,
      h2.2.2.1.trans h1.2.2.1, h2.2.2.2.trans h1.2.2.2⟩

/-- C6 counterexample: supplying only explicit x-labels (no explicit
x-ticks) does not bypass the auto-tick generator for the x-axis: the
displayed x-labels are the caller-supplied ones, yet the displayed
x-ticks are exactly the auto-generated ticks, and that auto tick set is
nonempty, so the generator is still consulted for that axis. -/
theorem labels_only_does_not_bypass_tick_auto :
    displayedXLabels (Grid.setXLabels initialGrid ["a"]) = ["a"] ∧
    displayedXTicks (Grid.setXLabels initialGrid ["a"]) =
      createAutoGridTicks Scaling.linear ⟨0, 0⟩ 0 GridType.grid_translucent
        [] ∧
    displayedXTicks (Grid.setXLabels initialGrid ["a"]) ≠ [] :=
  ⟨rfl, rfl, List.cons_ne_nil _ _⟩

/-- C6 (amended): each override acts per kind and independently: once
explicit ticks are supplied for an axis, every subsequent grid update
that does not change an override displays exactly the supplied ticks
(auto tick generation bypassed for that axis); likewise, once explicit
labels are supplied for an axis, every such update displays exactly the
supplied labels (auto label generation bypassed for that axis) — with
no requirement on the other axis or on the other kind of override. -/
theorem custom_overrides_bypass_auto_per_kind :
    (∀ (g : GridState) (ts : List ℚ) (ops : List GridOp), ts ≠ [] →
        (∀ op ∈ ops, changesCustomOverride op = false) →
        displayedXTicks (ops.foldl applyGridOp (Grid.setXTicks g ts)) = ts) ∧
    (∀ (g : GridState) (ts : List ℚ) (ops : List GridOp), ts ≠ [] →
        (∀ op ∈ ops, changesCustomOverride op = false) →
        displayedYTicks (ops.foldl applyGridOp (Grid.setYTicks g ts)) = ts) ∧
    (∀ (g : GridState) (ls : List String) (ops : List GridOp), ls ≠ [] →
        (∀ op ∈ ops, changesCustomOverride op = false) →
        displayedXLabels (ops.foldl applyGridOp (Grid.setXLabels g ls)) = ls) ∧
    (∀ (g : GridState) (ls : List String) (ops : List GridOp), ls ≠ [] →
        (∀ op ∈ ops, changesCustomOverride op = false) →
        displayedYLabels (ops.foldl applyGridOp (Grid.setYLabels g ls)) = ls) := by
  refine ⟨?_, ?_, ?_, ?_⟩
  · intro g ts ops hts hops
    have hx2 : (ops.foldl applyGridOp (Grid.setXTicks g ts)).custom_x_ticks
        = ts := (foldl_preserves_customs ops _ hops).1
    rw [displayedXTicks, hx2, isEmpty_false_of_ne_nil _ hts]
    rfl
  · intro g ts ops hts hops
    have hy2 : (ops.foldl applyGridOp (Grid.setYTicks g ts)).custom_y_ticks
        = ts := (foldl_preserves_customs ops _ hops).2.1
    rw [displayedYTicks, hy2, isEmpty_false_of_ne_nil _ hts]
    rfl
  · intro g ls ops hls hops
    have hxl2 : (ops.foldl applyGridOp (Grid.setXLabels g ls)).custom_x_labels
        = ls := (foldl_preserves_customs ops _ hops).2.2.1
    rw [displayedXLabels, hxl2, isEmpty_false_of_ne_nil _ hls]
    rfl
  · intro g ls ops hls hops
    have hyl2 : (ops.foldl applyGridOp (Grid.setYLabels g ls)).custom_y_labels
        = ls := (foldl_preserves_customs ops _ hops).2.2.2
    rw [displayedYLabels, hyl2, isEmpty_false_of_ne_nil _ hls]
    rfl

/-- C6 witness: two of the disjunctive cases concretely: a grid with
only explicit x-ticks supplied still displays exactly those ticks after
a limit change and an update, and a grid with only explicit x-labels
supplied still displays exactly those labels after a scaling change and
an update. -/
theorem custom_overrides_bypass_auto_per_kind_witness :
    displayedXTicks ((([GridOp.setXLimOp ⟨0, 5⟩, GridOp.updateOp,
        GridOp.resizeOp 300 200] : List GridOp).foldl applyGridOp
      (Grid.setXTicks initialGrid [1, 2]))) = [1, 2] ∧
    displayedXLabels ((([GridOp.setXScalingOp Scaling.logarithmic,
        GridOp.updateOp,
        GridOp.setGridTypeOp GridType.tiny_grid] : List GridOp).foldl
      applyGridOp (Grid.setXLabels initialGrid ["a"]))) = ["a"] :=
  ⟨custom_overrides_bypass_auto_per_kind.1 initialGrid [1, 2] _
      (by decide) (by intro op hop; fin_cases hop <;> rfl),
    custom_overrides_bypass_auto_per_kind.2.2.1 initialGrid ["a"] _
      (by decide) (by intro op hop; fin_cases hop <;> rfl)⟩

/-! ## C4 -/

/-- C4: for monotonically increasing axis limits, a positive pixel
span and an in-range data value (strictly positive limits under
logarithmic scaling), mapping through the data-to-pixel transform and
back recovers the value exactly, and a further transform round trip
does not drift: transform of the recovered value equals the original
transform output, for both linear and logarithmic scaling. -/
theorem transform_round_trip (s : Scaling) (lim : Lim ℝ) (b w v : ℝ)
    (hlim : lim.min < lim.max) (hw : 0 < w)
    (hv1 : lim.min ≤ v) (hv2 : v ≤ lim.max)
    (hlog : s = Scaling.logarithmic → 0 < lim.min) :
    transformPixelToValue s lim b w (transformValueToPixel s lim b w v) = v ∧
    transformValueToPixel s lim b w
        (transformPixelToValue s lim b w
          (transformValueToPixel s lim b w v)) =
      transformValueToPixel s lim b w v := by
  have key :
      transformPixelToValue s lim b w (transformValueToPixel s lim b w v)
        = v := by
    cases s with
    | linear =>
      simp only [transformValueToPixel, transformPixelToValue]
      have h1 : lim.max - lim.min ≠ 0 := sub_ne_zero.mpr (ne_of_gt hlim)
      have h2 : w ≠ 0 := ne_of_gt hw
      field_simp
      ring
    | logarithmic =>
      have hmin : 0 < lim.min := hlog rfl
      have hv : 0 < v := lt_of_lt_of_le hmin hv1
      have hlt : Real.log lim.min < Real.log lim.max :=
        Real.log_lt_log hmin hlim
      have h1 : Real.log lim.max - Real.log lim.min ≠ 0 :=
        sub_ne_zero.mpr (ne_of_gt hlt)
      have h2 : w ≠ 0 := ne_of_gt hw
      simp only [transformValueToPixel, transformPixelToValue]
      have harg : Real.log lim.min +
          (b + (Real.log v - Real.log lim.min) /
              (Real.log lim.max - Real.log lim.min) * w - b) / w *
            (Real.log lim.max - Real.log lim.min) = Real.log v := by
        field_simp
        ring
      rw [harg, Real.exp_log hv]
  exact ⟨key, by rw [key]⟩

/-- C4 witness: logarithmic scaling with limits 1 to 10, pixel span
100, value 2: the inverse transform recovers 2 exactly. -/
theorem transform_round_trip_witness :
    transformPixelToValue Scaling.logarithmic ⟨1, 10⟩ 0 100
        (transformValueToPixel Scaling.logarithmic ⟨1, 10⟩ 0 100 2) = 2 :=
  (transform_round_trip Scaling.logarithmic ⟨1, 10⟩ 0 100 2
    (by norm_num) (by norm_num) (by norm_num) (by norm_num)
    (fun _ => by norm_num)).1

end CMP
